import Mathlib

/-!
# Velocidoc-PDFGen — verification of the request-resolution and validation pipeline

Shallow embedding of the core pipeline of the Velocidoc-PDFGen repository:

* `DocxService.processDataForImages` (services/docx.ts) — the image-payload
  normalizer over JSON-like data trees;
* `validateDocx` and `extractFields` (services/template-validator.ts) — the
  binary container validator and the placeholder field extractor;
* the `/v1/generate` route (routes/generate.ts) — payload schema checks,
  template-source resolution, remote fetch bounding, response shaping and
  error classification.

External collaborators (the ZIP library, the storage backend, the rendering
and conversion delegates, the platform URL parser and the network) are
modelled as explicit oracle parameters; everything the repository's own code
does is translated directly from the source.

JavaScript strings are modelled as Lean `String` (a list of characters);
buffers as lists of bytes.  The regular expressions used by the extractor are
implemented as explicit scanners that reproduce the semantics of the concrete
patterns appearing in the source (greedy character-class runs followed by
literal terminators admit no observable backtracking, so the scanners are
exact).
-/

namespace Velocidoc

/-- A binary buffer: a list of byte values (as in Node `Buffer`). -/
abbrev Buffer := List Nat

/-! ## JSON-like data values

The data tree handed to `processDataForImages`: JSON scalars, arrays and
objects, plus the two opaque pass-through kinds the source special-cases
(`Date` instances and `Buffer` binary blobs). -/

inductive JsValue where
  | str (s : String)
  | num (n : Int)
  | boolean (b : Bool)
  | null
  | arr (elems : List JsValue)
  | obj (entries : List (String × JsValue))
  | date (epochMillis : Int)
  | bin (bytes : Buffer)

/-- Strip a literal prefix from a character list, returning the remainder
when the prefix matches (used to model anchored literal regex parts). -/
def dropLit : List Char → List Char → Option (List Char)
  | [], s => some s
  | _ :: _, [] => none
  | p :: ps, c :: cs => if c = p then dropLit ps cs else none

/-- Characters matched by an unflagged JavaScript regex `.`
(everything except the four line terminators). -/
def isJsDotChar (c : Char) : Bool :=
  !(c == '\n' || c == '\r' || c.toNat == 0x2028 || c.toNat == 0x2029)

/-- The image formats accepted by the data-URI pattern, in alternation
order: `(png|jpg|jpeg)`. -/
def imageFormats : List String := ["png", "jpg", "jpeg"]

/-- Try each format alternative: the remainder of the subject after
`data:image/` must continue with `<fmt>;base64,` and the captured payload
(matched by `(.*)$`, so free of line terminators). -/
def tryFormats : List String → List Char → Option (String × String)
  | [], _ => none
  | f :: fs, rest =>
    match dropLit (f.data ++ ";base64,".data) rest with
    | some payload =>
        if payload.all isJsDotChar then some (f, ⟨payload⟩) else none
    | none => tryFormats fs rest

/-- JavaScript `s.match(/^data:image\/(png|jpg|jpeg);base64,(.*)$/)`:
returns the captured format and payload when the whole string matches. -/
def matchImageDataUri (s : String) : Option (String × String) :=
  match dropLit "data:image/".data s.data with
  | none => none
  | some rest => tryFormats imageFormats rest

/-! `DocxService.processDataForImages` (services/docx.ts).  The source's
initial `if (!data) return data;` short-circuit returns falsy values
(`null`, `0`, `false`, the empty string) unchanged, which coincides with the
per-kind handling below, so it needs no separate branch. -/

mutual

/-- Recursive image-payload normalizer: rewrites matching data-URI strings
into image descriptor objects, maps over arrays, rebuilds plain objects,
and passes `Date`/`Buffer` values and other scalars through unchanged. -/
def processDataForImages : JsValue → JsValue
  | .str s =>
    match matchImageDataUri s with
    | some (fmt, payload) =>
        .obj [("width", .num 6), ("height", .num 6),
              ("data", .str payload), ("extension", .str ("." ++ fmt))]
    | none => .str s
  | .arr elems => .arr (processJsList elems)
  | .date t => .date t
  | .bin b => .bin b
  | .obj entries => .obj (processJsEntries entries)
  | .num n => .num n
  | .boolean b => .boolean b
  | .null => .null

/-- Elementwise normalization of an array (`data.map(...)`). -/
def processJsList : List JsValue → List JsValue
  | [] => []
  | v :: vs => processDataForImages v :: processJsList vs

/-- Per-key normalization of a plain object (`for (const key in data)`). -/
def processJsEntries : List (String × JsValue) → List (String × JsValue)
  | [] => []
  | (k, v) :: kvs => (k, processDataForImages v) :: processJsEntries kvs

end

/-! ## Binary container validator (services/template-validator.ts)

JSZip is an external collaborator: an opened archive is modelled as a part
lookup (`zip.file(path)` returning the part's text or nothing), and
`JSZip.loadAsync` as an oracle from buffers to either an opened archive or a
parse-failure message (a thrown exception). -/

/-- An opened ZIP archive: path to textual content of the part, when
present. -/
abbrev Archive := String → Option String

/-- The archive-open collaborator (`JSZip.loadAsync`): parse failure carries
the exception message. -/
abbrev ZipOpen := Buffer → Except String Archive

/-- Result of `validateDocx`: validity flag plus the optional error list
(the source omits `errors` on success). -/
structure ValidationResult where
  valid : Bool
  errors : Option (List String)

/-- The mandatory DOCX parts checked by `validateDocx`. -/
def requiredFiles : List String := ["[Content_Types].xml", "word/document.xml"]

/-- `validateDocx(buffer)`: fail fast unless the buffer is at least 4 bytes
long and starts with the ZIP magic `PK` (0x50 0x4B); then open the archive
and report each missing mandatory part as a distinct error string. -/
def validateDocx (zipOpen : ZipOpen) (buffer : Buffer) : ValidationResult :=
  if buffer.length < 4 ∨ buffer.getD 0 0 ≠ 0x50 ∨ buffer.getD 1 0 ≠ 0x4b then
    { valid := false,
      errors := some ["File is not a valid ZIP archive (missing PK signature)"] }
  else
    match zipOpen buffer with
    | .error msg =>
        { valid := false, errors := some ["Failed to parse ZIP archive: " ++ msg] }
    | .ok zip =>
        let errs := (requiredFiles.filter fun f => (zip f).isNone).map
          fun f => "Missing required file: " ++ f
        if errs.length > 0 then { valid := false, errors := some errs }
        else { valid := true, errors := none }

/-- The fail-fast precondition of `validateDocx`: buffer long enough and
carrying the ZIP magic signature. -/
def hasZipMagic (buffer : Buffer) : Prop :=
  4 ≤ buffer.length ∧ buffer.getD 0 0 = 0x50 ∧ buffer.getD 1 0 = 0x4b

instance (buffer : Buffer) : Decidable (hasZipMagic buffer) := by
  unfold hasZipMagic; infer_instance

/-- A collaborator double for the archive opener: opens every buffer and
reports every part present with empty text. -/
def zipAlways : ZipOpen := fun _ => .ok fun _ => some ""

/-! ## Placeholder field extractor (services/template-validator.ts)

`extractFieldsFromXml` applies five regex passes; the regular expressions
are embedded as explicit scanners.  In each pattern every greedy
character-class run is followed by a literal whose first character the class
cannot match, so greedy matching without backtracking is exact. -/

/-- ASCII letter (regex class `[a-zA-Z]`). -/
def isAsciiLetter (c : Char) : Bool :=
  ('A' ≤ c && c ≤ 'Z') || ('a' ≤ c && c ≤ 'z')

/-- Regex class `[a-zA-Z_]` (identifier start). -/
def isIdentStart (c : Char) : Bool := isAsciiLetter c || c == '_'

/-- Regex class `[a-zA-Z0-9_]` (identifier continuation). -/
def isIdentChar (c : Char) : Bool := isIdentStart c || ('0' ≤ c && c ≤ '9')

/-- Regex class `[a-zA-Z0-9_.]` (raw-pass identifier continuation). -/
def isIdentDotChar (c : Char) : Bool := isIdentChar c || c == '.'

/-- JavaScript regex `\s` (whitespace class). -/
def isJsWs (c : Char) : Bool :=
  c == ' ' || c == '\t' || c == '\n' || c == '\r' || c == '\x0b' || c == '\x0c' ||
  c.toNat == 0xa0 || c.toNat == 0x1680 ||
  (0x2000 ≤ c.toNat && c.toNat ≤ 0x200a) ||
  c.toNat == 0x2028 || c.toNat == 0x2029 || c.toNat == 0x202f ||
  c.toNat == 0x205f || c.toNat == 0x3000 || c.toNat == 0xfeff

/-- `xml.replace(/<[^>]+>/g, "")`: drop every maximal `<`…`>` group with a
non-empty interior; a `<` with no later `>` (or immediately followed by `>`)
is kept, as in the source regex. -/
def stripTagsAux : Nat → List Char → List Char
  | 0, s => s
  | _, [] => []
  | fuel + 1, c :: rest =>
    if c = '\x3c' then
      let seg := rest.takeWhile (· ≠ '\x3e')
      if seg.length < rest.length ∧ 0 < seg.length then
        stripTagsAux fuel (rest.drop (seg.length + 1))
      else c :: stripTagsAux fuel rest
    else c :: stripTagsAux fuel rest

/-- `xml.replace(/<[^>]+>/g, "")` (fuel = subject length, which bounds the
number of steps since every step consumes at least one character). -/
def stripTags (s : List Char) : List Char := stripTagsAux s.length s

/-- Global literal replacement (`s.replace(/pat/g, rep)` for a literal
pattern): leftmost, non-overlapping, not re-scanning the replacement.  The
fuel is the subject length, which bounds the number of steps. -/
def replaceSubAux (pat rep : List Char) : Nat → List Char → List Char
  | _, [] => []
  | 0, s => s
  | fuel + 1, c :: cs =>
    if pat.isPrefixOf (c :: cs) && !pat.isEmpty then
      rep ++ replaceSubAux pat rep fuel ((c :: cs).drop pat.length)
    else c :: replaceSubAux pat rep fuel cs

/-- Replace every occurrence of the literal `pat` by `rep`. -/
def replaceSub (pat rep s : List Char) : List Char :=
  replaceSubAux pat rep s.length s

/-- The entity-decoding chain applied after tag stripping, in source order:
`&lt;` `&gt;` `&amp;` `&quot;` `&apos;`. -/
def decodeEntities (s : List Char) : List Char :=
  let s1 := replaceSub "&lt;".data "<".data s
  let s2 := replaceSub "&gt;".data ">".data s1
  let s3 := replaceSub "&amp;".data "&".data s2
  let s4 := replaceSub "&quot;".data "\"".data s3
  replaceSub "&apos;".data "\x27".data s4

/-- The plain-text view of an XML part: tags stripped, entities decoded. -/
def plainTextOf (xml : String) : String := ⟨decodeEntities (stripTags xml.data)⟩

/-- Drive a single-position matcher over the subject exactly as a JavaScript
`regex.exec` loop with the `g` flag: successive leftmost non-overlapping
matches, resuming after each match (all patterns here match at least one
character, and the fuel — the subject length — bounds the steps). -/
def scanWith {α : Type} (tryMatch : List Char → Option (α × List Char)) :
    Nat → List Char → List α
  | 0, _ => []
  | _, [] => []
  | fuel + 1, c :: cs =>
    match tryMatch (c :: cs) with
    | some (a, rest) => a :: scanWith tryMatch fuel rest
    | none => scanWith tryMatch fuel cs

/-- All matches of a pattern in a string. -/
def scanAll {α : Type} (tryMatch : List Char → Option (α × List Char))
    (s : String) : List α :=
  scanWith tryMatch s.data.length s.data

/-- Case-insensitive literal match (the `i` flag on an ASCII literal). -/
def matchCI : List Char → List Char → Option (List Char)
  | [], s => some s
  | _ :: _, [] => none
  | p :: ps, c :: cs => if c.toLower = p.toLower then matchCI ps cs else none

/-- Greedy `[a-zA-Z_][a-zA-Z0-9_]*`. -/
def takeIdent : List Char → Option (List Char × List Char)
  | [] => none
  | c :: cs =>
    if isIdentStart c then
      let run := cs.takeWhile isIdentChar
      some (c :: run, cs.drop run.length)
    else none

/-- Greedy `(?:\.[a-zA-Z_][a-zA-Z0-9_]*)*` continuation of a dotted
identifier. -/
def dottedTail : Nat → List Char → (List Char × List Char)
  | 0, s => ([], s)
  | fuel + 1, s =>
    match s with
    | '.' :: c :: cs =>
      if isIdentStart c then
        let run := cs.takeWhile isIdentChar
        let step := dottedTail fuel (cs.drop run.length)
        ('.' :: c :: (run ++ step.1), step.2)
      else ([], s)
    | _ => ([], s)

/-- Greedy `[a-zA-Z_][a-zA-Z0-9_]*(?:\.[a-zA-Z_][a-zA-Z0-9_]*)*`. -/
def takeDotted (s : List Char) : Option (List Char × List Char) :=
  match takeIdent s with
  | none => none
  | some (id1, rest) =>
    let step := dottedTail rest.length rest
    some (id1 ++ step.1, step.2)

/-- Greedy `\s*` (returns the consumed run and the remainder). -/
def takeWs (s : List Char) : (List Char × List Char) :=
  (s.takeWhile isJsWs, s.dropWhile isJsWs)

/-- Simple-reference pattern
`\{\{([a-zA-Z_][a-zA-Z0-9_]*(?:\.[a-zA-Z_][a-zA-Z0-9_]*)*)\}\}` at the
current position. -/
def trySimple (s : List Char) : Option (String × List Char) :=
  match s with
  | '\x7b' :: '\x7b' :: rest =>
    match takeDotted rest with
    | some (d, r1) =>
      match r1 with
      | '\x7d' :: '\x7d' :: r2 => some (⟨d⟩, r2)
      | _ => none
    | none => none
  | _ => none

/-- Loop pattern `\{\{FOR\s+([a-zA-Z_][a-zA-Z0-9_]*)(?:\s+IN\s+(dotted))?\}\}`
(case-insensitive): the optional `IN` group is tried greedily first, exactly
as the backtracking regex engine does. -/
def tryFor (s : List Char) : Option ((String × Option String) × List Char) :=
  match s with
  | '\x7b' :: '\x7b' :: rest =>
    match matchCI "FOR".data rest with
    | none => none
    | some r1 =>
      let ws1 := takeWs r1
      if ws1.1.isEmpty then none
      else
        match takeIdent ws1.2 with
        | none => none
        | some (x, r3) =>
          let inBranch : Option (List Char × List Char) :=
            let ws2 := takeWs r3
            if ws2.1.isEmpty then none
            else
              match matchCI "IN".data ws2.2 with
              | none => none
              | some r5 =>
                let ws3 := takeWs r5
                if ws3.1.isEmpty then none
                else
                  match takeDotted ws3.2 with
                  | none => none
                  | some (y, r7) =>
                    match r7 with
                    | '\x7d' :: '\x7d' :: r8 => some (y, r8)
                    | _ => none
          match inBranch with
          | some (y, r8) => some ((⟨x⟩, some ⟨y⟩), r8)
          | none =>
            match r3 with
            | '\x7d' :: '\x7d' :: r4 => some ((⟨x⟩, none), r4)
            | _ => none
  | _ => none

/-- Image pattern `\{\{IMAGE\s+(dotted)\}\}` (case-insensitive). -/
def tryImage (s : List Char) : Option (String × List Char) :=
  match s with
  | '\x7b' :: '\x7b' :: rest =>
    match matchCI "IMAGE".data rest with
    | none => none
    | some r1 =>
      let ws1 := takeWs r1
      if ws1.1.isEmpty then none
      else
        match takeDotted ws1.2 with
        | none => none
        | some (d, r3) =>
          match r3 with
          | '\x7d' :: '\x7d' :: r4 => some (⟨d⟩, r4)
          | _ => none
  | _ => none

/-- Conditional pattern `\{\{IF\s+(dotted)` (case-insensitive, prefix-only:
no closing braces required). -/
def tryIfDirective (s : List Char) : Option (String × List Char) :=
  match s with
  | '\x7b' :: '\x7b' :: rest =>
    match matchCI "IF".data rest with
    | none => none
    | some r1 =>
      let ws1 := takeWs r1
      if ws1.1.isEmpty then none
      else
        match takeDotted ws1.2 with
        | none => none
        | some (d, r3) => some (⟨d⟩, r3)
  | _ => none

/-- Raw-markup pattern `\{\{\s*([a-zA-Z_][a-zA-Z0-9_.]*)\s*\}\}` run over
the undecoded XML (the `.trim()` of the capture is a no-op, as the class
excludes whitespace). -/
def tryRaw (s : List Char) : Option (String × List Char) :=
  match s with
  | '\x7b' :: '\x7b' :: rest =>
    let ws1 := takeWs rest
    match ws1.2 with
    | c :: cs =>
      if isIdentStart c then
        let run := cs.takeWhile isIdentDotChar
        let ws2 := takeWs (cs.drop run.length)
        match ws2.2 with
        | '\x7d' :: '\x7d' :: r4 => some (⟨c :: run⟩, r4)
        | _ => none
      else none
    | [] => none
  | _ => none

/-- The control keywords of `isControlKeyword`. -/
def controlKeywords : List String :=
  ["END-FOR", "END-IF", "ENDFOR", "ENDIF",
   "FOR", "IF", "ELSE", "IMAGE", "LINK", "HTML",
   "this", "$idx", "$index"]

/-- `str.toUpperCase()` for the ASCII identifiers produced by the passes. -/
def upperAscii (s : String) : String := ⟨s.data.map Char.toUpper⟩

/-- `isControlKeyword(str)`: the keyword list contains the uppercased string
or the string itself. -/
def isControlKeyword (s : String) : Bool :=
  controlKeywords.contains (upperAscii s) || controlKeywords.contains s

/-- Simple-reference pass over the plain-text view, skipping control
keywords. -/
def simpleFields (s : String) : List String :=
  (scanAll trySimple s).filter fun f => !isControlKeyword f

/-- The group pairs matched by the loop pass: loop variable and optional
collection identifier. -/
def forPairs (s : String) : List (String × Option String) := scanAll tryFor s

/-- Loop pass: the collection identifier when the `IN` form matched,
otherwise the loop variable (no keyword filter in the source). -/
def forFields (s : String) : List String :=
  (forPairs s).map fun p => p.2.getD p.1

/-- Image pass (no keyword filter in the source). -/
def imageFields (s : String) : List String := scanAll tryImage s

/-- Conditional pass (no keyword filter in the source). -/
def ifFields (s : String) : List String := scanAll tryIfDirective s

/-- Raw-markup re-scan over the undecoded XML, skipping control keywords. -/
def rawFields (xml : String) : List String :=
  (scanAll tryRaw xml).filter fun f => !isControlKeyword f

/-- `extractFieldsFromXml(xml, fields)`: the fields contributed by the five
passes, in source order (the shared `Set` is modelled by deduplicating the
concatenated contributions later, preserving first-occurrence order). -/
def collectXmlFields (xml : String) : List String :=
  let t := plainTextOf xml
  simpleFields t ++ forFields t ++ imageFields t ++ ifFields t ++ rawFields xml

/-- The contributions of the three directive passes (loop, image,
conditional), which the source adds without the keyword filter. -/
def directiveFields (xml : String) : List String :=
  let t := plainTextOf xml
  forFields t ++ imageFields t ++ ifFields t

/-- The textual parts scanned by `extractFields`. -/
def xmlFiles : List String :=
  ["word/document.xml", "word/header1.xml", "word/header2.xml", "word/header3.xml",
   "word/footer1.xml", "word/footer2.xml", "word/footer3.xml"]

/-- `extractFields(buffer)`: open the archive (an open failure is caught and
yields the empty list), extract from every present part into one
de-duplicated set, and return it sorted (`Array.from(fields).sort()`). -/
def extractFields (zo : ZipOpen) (buffer : Buffer) : List String :=
  match zo buffer with
  | .error _ => []
  | .ok zip =>
    let collected := xmlFiles.flatMap fun p =>
      match zip p with
      | some content => collectXmlFields content
      | none => []
    List.insertionSort (· ≤ ·) collected.dedup

/-- A collaborator double: an archive whose only part is `word/document.xml`
with the given content. -/
def zipWithDoc (content : String) : ZipOpen :=
  fun _ => .ok fun p => if p = "word/document.xml" then some content else none

/-! ## The `/v1/generate` route (routes/generate.ts)

The payload schema (`UniversalPayloadSchema`), the remote fetch
(`fetchTemplateFromUrl`), the response shaping and the catch-block error
classification are embedded below.  The external collaborators — URL
validity (`z.string().url()`), the platform URL parser inside
`extractFilenameFromUrl`, base64 decoding (`Buffer.from(_, 'base64')`,
which is lenient and total), the two rendering entry points of
`DocxService`, the Gotenberg conversion call and the network outcome of the
single bounded fetch — are oracle fields. -/

inductive OutputFormat where
  | pdf
  | docx
  | html
  deriving DecidableEq

/-- The inline (BYOT) template schema: base64 content plus filename. -/
structure InlineTemplate where
  content : String
  filename : String

/-- The optional options bag of the payload. -/
structure GenOptions where
  header_text : Option String := none
  watermark : Option Bool := none
  metadata : List (String × String) := []

/-- The `UniversalPayloadSchema` shape: three optional template sources, an
output-format enum, a data record, and an options bag. -/
structure UniversalPayload where
  template_id : Option String := none
  template : Option InlineTemplate := none
  template_url : Option String := none
  output_format : OutputFormat
  data : List (String × JsValue) := []
  options : Option GenOptions := none

/-- JavaScript truthiness of an optional string field (absent and the empty
string are falsy). -/
def truthyStr : Option String → Bool
  | some s => !(s == "")
  | none => false

/-- `[data.template_id, data.template, data.template_url].filter(Boolean).length`. -/
def sourceCount (p : UniversalPayload) : Nat :=
  (if truthyStr p.template_id then 1 else 0)
  + (if p.template.isSome then 1 else 0)
  + (if truthyStr p.template_url then 1 else 0)

/-- First refinement: `data.template_id || data.template || data.template_url`. -/
def refineOneOf (p : UniversalPayload) : Bool :=
  truthyStr p.template_id || p.template.isSome || truthyStr p.template_url

/-- Second refinement: the truthy-source count is exactly one. -/
def refineExactlyOne (p : UniversalPayload) : Bool :=
  sourceCount p == 1

/-- Per-field issues of the base object schema (inline-template `min(1)`
checks and the `url()` format check), before the refinements run. -/
def fieldIssues (isValidUrl : String → Bool) (p : UniversalPayload) : Option String :=
  let urlIssue :=
    match p.template_url with
    | some u => if isValidUrl u then none else some "Invalid URL format"
    | none => none
  match p.template with
  | some t =>
    if t.content == "" then some "Template content is required"
    else if t.filename == "" then some "Filename is required"
    else urlIssue
  | none => urlIssue

/-- The full schema check run by the framework before the handler: field
issues first, then the two refinements in order. -/
def schemaCheck (isValidUrl : String → Bool) (p : UniversalPayload) : Option String :=
  match fieldIssues isValidUrl p with
  | some m => some m
  | none =>
    if !refineOneOf p then
      some "One of template_id, template, or template_url must be provided"
    else if !refineExactlyOne p then
      some "Provide exactly one of: template_id, template, or template_url"
    else none

/-- What the network does for the single bounded fetch: the abort timer
fires, the transport fails with an error message, or a response arrives
with a status, status text, optional declared content-length and a body. -/
inductive FetchOutcome where
  | timeout
  | transportError (msg : String)
  | response (status : Nat) (statusText : String)
      (contentLength : Option Nat) (body : Buffer)

/-- `TIMEOUT_MS = 30000` (30 second timeout). -/
def fetchTimeoutMs : Nat := 30000

/-- `MAX_SIZE = 50 * 1024 * 1024` (50MB max template size). -/
def fetchMaxSize : Nat := 50 * 1024 * 1024

/-- `response.ok`: status in the inclusive range 200–299. -/
def isOkStatus (status : Nat) : Bool := 200 ≤ status && status ≤ 299

/-- The actual-bytes size check after the body arrived. -/
def fetchBodyCheck (body : Buffer) : Except String Buffer :=
  if fetchMaxSize < body.length then
    .error ("Failed to fetch template from URL: " ++
      ("Template file too large: " ++ toString body.length
        ++ " bytes (max " ++ toString fetchMaxSize ++ ")"))
  else .ok body

/-- `fetchTemplateFromUrl`: an abort becomes the timeout message (not
re-wrapped); every other thrown error — non-success status, declared or
actual size-cap violation, transport failure — is re-wrapped by the catch
with the `Failed to fetch template from URL: ` prefix. -/
def fetchTemplateFromUrl (outcome : FetchOutcome) : Except String Buffer :=
  match outcome with
  | .timeout =>
      .error ("Failed to fetch template: Request timed out after "
        ++ toString fetchTimeoutMs ++ "ms")
  | .transportError msg =>
      .error ("Failed to fetch template from URL: " ++ msg)
  | .response status statusText contentLength body =>
      if !isOkStatus status then
        .error ("Failed to fetch template from URL: " ++
          ("Failed to fetch template: HTTP " ++ toString status ++ " " ++ statusText))
      else
        match contentLength with
        | some n =>
          if fetchMaxSize < n then
            .error ("Failed to fetch template from URL: " ++
              ("Template file too large: " ++ toString n
                ++ " bytes (max " ++ toString fetchMaxSize ++ ")"))
          else fetchBodyCheck body
        | none => fetchBodyCheck body

/-- Substring membership over character lists (JavaScript
`String.prototype.includes`). -/
def hasSubstr (pat : List Char) : List Char → Bool
  | [] => pat.isEmpty
  | c :: cs => pat.isPrefixOf (c :: cs) || hasSubstr pat cs

/-- `s.includes(pat)`. -/
def strContains (s pat : String) : Bool := hasSubstr pat.data s.data

/-- The observable I/O steps of the handler (storage-backed render, remote
fetch, buffer render, conversion call). -/
inductive Effect where
  | urlFetch
  | storedRender
  | bufRender
  | convertCall
  deriving DecidableEq

/-- The outward reply: a binary success with content type and
`Content-Disposition` filename, a framework-level schema rejection, or a
structured error body with an HTTP status. -/
inductive Response where
  | ok (contentType filename : String) (body : Buffer)
  | schemaErr (message : String)
  | err (status : Nat) (error : String) (details : Option String)
  deriving DecidableEq

/-- The catch-block classification chain of the route, in source order. -/
def classifyError (templateId : Option String) (msg : String) : Response :=
  if strContains msg "ENOENT" || strContains msg "no such file" then
    .err 404 "Template not found" templateId
  else if strContains msg "Gotenberg" then
    .err 502 "PDF conversion service unavailable" (some msg)
  else if strContains msg "base64" || strContains msg "Invalid" then
    .err 400 "Invalid template content" (some msg)
  else if strContains msg "Failed to fetch template" || strContains msg "fetch" then
    .err 502 "Failed to fetch template from URL" (some msg)
  else
    .err 500 "Internal server error during document generation" (some msg)

/-- The DOCX content type sent for native output. -/
def docxMime : String :=
  "application/vnd.openxmlformats-officedocument.wordprocessingml.document"

/-- `templateName.replace(/\.docx$/i, '')`: remove one case-insensitive
`.docx` suffix. -/
def stripDocxExt (s : String) : String :=
  let cs := s.data
  let n := cs.length
  if 5 ≤ n ∧ (cs.drop (n - 5)).map Char.toLower = ".docx".data then
    ⟨cs.take (n - 5)⟩
  else s

/-- `.replace(/\//g, "_")`: every slash becomes an underscore. -/
def replaceSlashes (s : String) : String :=
  ⟨s.data.map fun c => if c = '/' then '_' else c⟩

/-- The output filename base: native extension stripped, slashes
replaced. -/
def outputName (templateName : String) : String :=
  replaceSlashes (stripDocxExt templateName)

/-- The collaborators and ambient behavior of one request. -/
structure Oracles where
  isValidUrl : String → Bool
  urlFilename : String → String
  zipOpen : ZipOpen
  base64decode : String → Buffer
  renderStored : String → List (String × JsValue) → Except String Buffer
  renderBuf : Buffer → List (String × JsValue) → Except String Buffer
  convert : Buffer → String → Except String Buffer
  fetchOutcome : FetchOutcome

/-- `payload.template?.filename || (payload.template_url ?
extractFilenameFromUrl(payload.template_url) : payload.template_id!)`
(`urlFilename` abstracts `extractFilenameFromUrl`, whose body is platform
URL parsing). -/
def displayName (o : Oracles) (p : UniversalPayload) : String :=
  match p.template with
  | some t =>
    if t.filename ≠ "" then t.filename
    else if truthyStr p.template_url then o.urlFilename (p.template_url.getD "")
    else p.template_id.getD ""
  | none =>
    if truthyStr p.template_url then o.urlFilename (p.template_url.getD "")
    else p.template_id.getD ""

/-- `validation.errors?.join(', ') || "Not a valid DOCX file"`. -/
def invalidTemplateDetails : Option (List String) → String
  | some es =>
    let j := String.intercalate ", " es
    if j == "" then "Not a valid DOCX file" else j
  | none => "Not a valid DOCX file"

/-- Intermediate outcome of the acquisition/validation/render steps: a
thrown error (to be classified by the catch block), a direct reply (the
invalid-template 400), or a rendered buffer. -/
inductive PhaseResult where
  | thrown (msg : String) (effects : List Effect)
  | reply (r : Response) (effects : List Effect)
  | rendered (buffer : Buffer) (effects : List Effect)

/-- The common BYOT/URL block: structural validation, then buffer
rendering. -/
def validateAndRender (o : Oracles) (p : UniversalPayload) (buf : Buffer)
    (effects : List Effect) : PhaseResult :=
  if (validateDocx o.zipOpen buf).valid then
    match o.renderBuf buf p.data with
    | .error e => .thrown e (effects ++ [.bufRender])
    | .ok r => .rendered r (effects ++ [.bufRender])
  else
    .reply (.err 400 "Invalid template file"
      (some (invalidTemplateDetails (validateDocx o.zipOpen buf).errors))) effects

/-- Template acquisition and rendering, mode by mode as in the source:
inline decode / remote fetch feed the common validated buffer path; the
stored mode renders directly without validation. -/
def renderPhase (o : Oracles) (p : UniversalPayload) : PhaseResult :=
  if p.template.isSome then
    validateAndRender o p
      (o.base64decode ((p.template.map InlineTemplate.content).getD "")) []
  else if truthyStr p.template_url then
    match fetchTemplateFromUrl o.fetchOutcome with
    | .error e => .thrown e [.urlFetch]
    | .ok buf => validateAndRender o p buf [.urlFetch]
  else
    match o.renderStored (p.template_id.getD "") p.data with
    | .error e => .thrown e [.storedRender]
    | .ok buf => .rendered buf [.storedRender]

/-- Response shaping: native DOCX output is returned directly with the DOCX
label; any other requested format is converted via the conversion delegate
and returned with the PDF label; both filenames append their extension to
the sanitized display name. -/
def respondPhase (o : Oracles) (p : UniversalPayload) (name : String)
    (rendered : Buffer) (effects : List Effect) : Response × List Effect :=
  if p.output_format = .docx then
    (.ok docxMime (outputName name ++ ".docx") rendered, effects)
  else
    match o.convert rendered (name ++ ".docx") with
    | .error e => (classifyError p.template_id e, effects ++ [.convertCall])
    | .ok pdf =>
      (.ok "application/pdf" (outputName name ++ ".pdf") pdf, effects ++ [.convertCall])

/-- The `/v1/generate` handler: framework schema validation, then the
try-block (acquire, validate, render, respond) with the catch-block
classification, recording the observable I/O effects. -/
def handleGenerate (o : Oracles) (p : UniversalPayload) : Response × List Effect :=
  match schemaCheck o.isValidUrl p with
  | some m => (.schemaErr m, [])
  | none =>
    match renderPhase o p with
    | .thrown e effects => (classifyError p.template_id e, effects)
    | .reply r effects => (r, effects)
    | .rendered buf effects => respondPhase o p (displayName o p) buf effects

/-- A collaborator assignment where everything succeeds trivially. -/
def trivialOracles : Oracles where
  isValidUrl := fun _ => true
  urlFilename := fun _ => "template.docx"
  zipOpen := zipAlways
  base64decode := fun _ => []
  renderStored := fun _ _ => .ok []
  renderBuf := fun _ _ => .ok []
  convert := fun _ _ => .ok []
  fetchOutcome := .timeout

theorem processJsList_eq_map (l : List JsValue) :
    processJsList l = l.map processDataForImages := by
  induction l with
  | nil => rfl
  | cons v vs ih => simp [processJsList, ih]

theorem processJsEntries_eq_map (l : List (String × JsValue)) :
    processJsEntries l = l.map fun kv => (kv.1, processDataForImages kv.2) := by
  induction l with
  | nil => rfl
  | cons kv kvs ih => cases kv; simp [processJsEntries, ih]

theorem str_data_append (a b : String) : (a ++ b).data = a.data ++ b.data := rfl

theorem dropLit_append (pre rest : List Char) :
    dropLit pre (pre ++ rest) = some rest := by
  induction pre with
  | nil => rfl
  | cons p ps ih => simp [dropLit, ih]

theorem matchImageDataUri_build (fmt payload : String)
    (hf : fmt ∈ imageFormats) (hp : payload.data.all isJsDotChar = true) :
    matchImageDataUri ("data:image/" ++ fmt ++ ";base64," ++ payload)
      = some (fmt, payload) := by
  have hsplit : ∀ f : String,
      ("data:image/" ++ f ++ ";base64," ++ payload).data
        = "data:image/".data ++ (f.data ++ (";base64,".data ++ payload.data)) := by
    intro f
    simp [str_data_append, List.append_assoc]
  fin_cases hf
  · have hm : matchImageDataUri ("data:image/" ++ "png" ++ ";base64," ++ payload)
        = tryFormats imageFormats ("png".data ++ (";base64,".data ++ payload.data)) := by
      unfold matchImageDataUri
      rw [hsplit "png", dropLit_append]
    have h1 : dropLit ("png".data ++ ";base64,".data)
        ("png".data ++ (";base64,".data ++ payload.data)) = some payload.data := rfl
    rw [hm]
    simp only [imageFormats, tryFormats, h1]
    rw [if_pos hp]
  · have hm : matchImageDataUri ("data:image/" ++ "jpg" ++ ";base64," ++ payload)
        = tryFormats imageFormats ("jpg".data ++ (";base64,".data ++ payload.data)) := by
      unfold matchImageDataUri
      rw [hsplit "jpg", dropLit_append]
    have h0 : dropLit ("png".data ++ ";base64,".data)
        ("jpg".data ++ (";base64,".data ++ payload.data)) = none := rfl
    have h1 : dropLit ("jpg".data ++ ";base64,".data)
        ("jpg".data ++ (";base64,".data ++ payload.data)) = some payload.data := rfl
    rw [hm]
    simp only [imageFormats, tryFormats, h0, h1]
    rw [if_pos hp]
  · have hm : matchImageDataUri ("data:image/" ++ "jpeg" ++ ";base64," ++ payload)
        = tryFormats imageFormats ("jpeg".data ++ (";base64,".data ++ payload.data)) := by
      unfold matchImageDataUri
      rw [hsplit "jpeg", dropLit_append]
    have h0 : dropLit ("png".data ++ ";base64,".data)
        ("jpeg".data ++ (";base64,".data ++ payload.data)) = none := rfl
    have h1 : dropLit ("jpg".data ++ ";base64,".data)
        ("jpeg".data ++ (";base64,".data ++ payload.data)) = none := rfl
    have h2 : dropLit ("jpeg".data ++ ";base64,".data)
        ("jpeg".data ++ (";base64,".data ++ payload.data)) = some payload.data := rfl
    rw [hm]
    simp only [imageFormats, tryFormats, h0, h1, h2]
    rw [if_pos hp]

/-- C2: every string matching the image data-URI pattern is rewritten to the
descriptor `{width: 6, height: 6, data: <payload>, extension: "." ++ <fmt>}`
with the payload kept byte-for-byte; non-matching strings and other scalars
are unchanged; arrays are mapped elementwise; objects are rebuilt with every
key preserved and values recursively transformed; dates and binary blobs are
unchanged. -/
theorem C2_processDataForImages_spec :
    (∀ fmt payload : String, fmt ∈ imageFormats →
      payload.data.all isJsDotChar = true →
      processDataForImages (.str ("data:image/" ++ fmt ++ ";base64," ++ payload))
        = .obj [("width", .num 6), ("height", .num 6),
                ("data", .str payload), ("extension", .str ("." ++ fmt))])
  ∧ (∀ s, matchImageDataUri s = none → processDataForImages (.str s) = .str s)
  ∧ (∀ n, processDataForImages (.num n) = .num n)
  ∧ (∀ b, processDataForImages (.boolean b) = .boolean b)
  ∧ processDataForImages .null = .null
  ∧ (∀ elems, processDataForImages (.arr elems) = .arr (elems.map processDataForImages))
  ∧ (∀ entries, processDataForImages (.obj entries)
        = .obj (entries.map fun kv => (kv.1, processDataForImages kv.2)))
  ∧ (∀ t, processDataForImages (.date t) = .date t)
  ∧ (∀ b, processDataForImages (.bin b) = .bin b) := by
  refine ⟨?_, ?_, ?_, ?_, ?_, ?_, ?_, ?_, ?_⟩
  · intro fmt payload hf hp
    rw [processDataForImages, matchImageDataUri_build fmt payload hf hp]
  · intro s h
    rw [processDataForImages, h]
  · intro n; rfl
  · intro b; rfl
  · rfl
  · intro elems
    rw [processDataForImages, processJsList_eq_map]
  · intro entries
    rw [processDataForImages, processJsEntries_eq_map]
  · intro t; rfl
  · intro b; rfl

/-- Witness for C2 at a concrete input: the data-URI string with format
`png` and payload `iVBORw0` becomes the expected image descriptor. -/
theorem C2_processDataForImages_spec_witness :
    processDataForImages (.str ("data:image/" ++ "png" ++ ";base64," ++ "iVBORw0"))
      = .obj [("width", .num 6), ("height", .num 6),
              ("data", .str "iVBORw0"), ("extension", .str ("." ++ "png"))] :=
  C2_processDataForImages_spec.1 "png" "iVBORw0" (by decide) (by decide)

/-- C3: for every buffer shorter than 4 bytes or whose first two bytes are
not the ZIP magic `PK`, the Validator returns invalid with exactly one error
string, and the result is the same for every archive-open collaborator (the
buffer is never opened). -/
theorem C3_magic_gate (zo : ZipOpen) (buffer : Buffer)
    (h : ¬ hasZipMagic buffer) :
    validateDocx zo buffer =
      { valid := false,
        errors := some ["File is not a valid ZIP archive (missing PK signature)"] } := by
  unfold validateDocx
  rw [if_pos]
  by_contra hc
  push_neg at hc
  exact h hc

/-- Witness for C3: the empty buffer is rejected with the single
PK-signature error, even when the archive collaborator would open it. -/
theorem C3_magic_gate_witness :
    ¬ hasZipMagic ([] : Buffer)
    ∧ validateDocx zipAlways [] =
        { valid := false,
          errors := some ["File is not a valid ZIP archive (missing PK signature)"] } :=
  ⟨by decide, C3_magic_gate zipAlways [] (by decide)⟩

/-- C4 counterexample: with an archive collaborator that opens any buffer
and reports both mandatory parts present, the buffer `[0,0,0,0]` opens with
both parts present, yet the Validator returns invalid — the PK-signature
pre-check also gates validity, so "valid iff the buffer opens as an archive
and both mandatory parts are present" is false as stated. -/
theorem C4_counterexample :
    (∃ zip, zipAlways [0, 0, 0, 0] = .ok zip
      ∧ (zip "[Content_Types].xml").isSome ∧ (zip "word/document.xml").isSome)
    ∧ (validateDocx zipAlways [0, 0, 0, 0]).valid = false :=
  ⟨⟨fun _ => some "", rfl, rfl, rfl⟩, rfl⟩

/-- C4 (amended): the Validator returns valid=true iff the buffer passes the
ZIP magic pre-check, opens as an archive, and both mandatory parts are
present; each missing mandatory part contributes a distinct error naming its
path; valid results carry no errors and invalid results carry at least
one. -/
theorem C4_validateDocx_amended (zo : ZipOpen) (buffer : Buffer) :
    ((validateDocx zo buffer).valid = true ↔
      (hasZipMagic buffer ∧ ∃ zip, zo buffer = .ok zip
        ∧ (zip "[Content_Types].xml").isSome ∧ (zip "word/document.xml").isSome))
  ∧ ((validateDocx zo buffer).valid = true → (validateDocx zo buffer).errors = none)
  ∧ ((validateDocx zo buffer).valid = false →
      1 ≤ ((validateDocx zo buffer).errors.getD []).length)
  ∧ (∀ zip, zo buffer = .ok zip → hasZipMagic buffer →
      ∀ f ∈ requiredFiles, (zip f).isNone = true →
        ("Missing required file: " ++ f) ∈ (validateDocx zo buffer).errors.getD []) := by
  by_cases hm : hasZipMagic buffer
  · have hcond : ¬(buffer.length < 4 ∨ buffer.getD 0 0 ≠ 0x50 ∨ buffer.getD 1 0 ≠ 0x4b) := by
      push_neg
      exact hm
    unfold validateDocx
    rw [if_neg hcond]
    cases hzo : zo buffer with
    | error msg =>
      refine ⟨?_, by simp, by simp, ?_⟩
      · simp
      · intro zip hz
        simp at hz
    | ok zip =>
      rcases h1 : zip "[Content_Types].xml" with _ | v1 <;>
        rcases h2 : zip "word/document.xml" with _ | v2 <;>
          simp_all [requiredFiles, hm]
  · have hcond : buffer.length < 4 ∨ buffer.getD 0 0 ≠ 0x50 ∨ buffer.getD 1 0 ≠ 0x4b := by
      by_contra hc
      push_neg at hc
      exact hm hc
    unfold validateDocx
    rw [if_pos hcond]
    refine ⟨by simp [hm], by simp, by simp, ?_⟩
    intro zip _ hmagic
    exact absurd hmagic hm

/-- Witness for C4 (amended): a buffer with the PK signature, under a
collaborator that opens it with both mandatory parts, validates
successfully. -/
theorem C4_validateDocx_amended_witness :
    (validateDocx zipAlways [0x50, 0x4b, 0x03, 0x04]).valid = true :=
  (C4_validateDocx_amended zipAlways [0x50, 0x4b, 0x03, 0x04]).1.mpr
    ⟨by decide, fun _ => some "", rfl, rfl, rfl⟩

/-- Bridging lemma: every field contributed by a present part reaches the
final extracted list. -/
theorem mem_extractFields_of_collect (zo : ZipOpen) (buffer : Buffer)
    (zip : Archive) (p content f : String)
    (hzo : zo buffer = .ok zip) (hp : p ∈ xmlFiles) (hc : zip p = some content)
    (hf : f ∈ collectXmlFields content) :
    f ∈ extractFields zo buffer := by
  unfold extractFields
  rw [hzo]
  simp only [List.mem_insertionSort, List.mem_dedup, List.mem_flatMap]
  exact ⟨p, hp, by rw [hc]; exact hf⟩

/-- C5: extraction is a total function (the embedding is a Lean `def`, so it
terminates and never throws); its result is duplicate-free and sorted
lexicographically, and a buffer the archive collaborator fails to open
yields the empty list. -/
theorem C5_extractFields_sorted_nodup (zo : ZipOpen) (buffer : Buffer) :
    (extractFields zo buffer).Sorted (· ≤ ·)
    ∧ (extractFields zo buffer).Nodup
    ∧ (∀ e, zo buffer = .error e → extractFields zo buffer = []) := by
  unfold extractFields
  cases hzo : zo buffer with
  | error e => simp
  | ok zip =>
    refine ⟨List.sorted_insertionSort _ _, ?_, by simp⟩
    exact (List.perm_insertionSort _ _).nodup_iff.mpr (List.nodup_dedup _)

/-- Witness for C5: a failing archive open yields the empty (trivially
sorted, duplicate-free) list. -/
theorem C5_extractFields_sorted_nodup_witness :
    extractFields (fun _ => .error "boom") [] = [] :=
  (C5_extractFields_sorted_nodup (fun _ => .error "boom") []).2.2 "boom" rfl

/-- C6 counterexample: the archive whose document part is `{{IMAGE if}}`
extracts the field list `["if"]`, and `if` is a control keyword — the image
pass adds its captured identifier without the keyword filter, so the claim
that no control keyword is ever a member fails. -/
theorem C6_counterexample :
    extractFields (zipWithDoc "\x7b\x7bIMAGE if\x7d\x7d") [] = ["if"]
    ∧ isControlKeyword "if" = true := by
  constructor
  · rfl
  · rfl

/-- C6 (amended): the keyword filter applies to the simple-reference and
raw-markup passes only — every extracted field is either not a control
keyword, or was contributed by one of the loop/image/conditional directive
passes (which add their captured identifier unconditionally). -/
theorem C6_keyword_exclusion_amended (zo : ZipOpen) (buffer : Buffer) :
    ∀ f ∈ extractFields zo buffer,
      isControlKeyword f = false
      ∨ (∃ zip p content, zo buffer = .ok zip ∧ p ∈ xmlFiles
          ∧ zip p = some content ∧ f ∈ directiveFields content) := by
  intro f hf
  unfold extractFields at hf
  cases hzo : zo buffer with
  | error e => rw [hzo] at hf; simp at hf
  | ok zip =>
    rw [hzo] at hf
    simp only [List.mem_insertionSort, List.mem_dedup, List.mem_flatMap] at hf
    obtain ⟨p, hp, hfp⟩ := hf
    cases hc : zip p with
    | none => rw [hc] at hfp; simp at hfp
    | some content =>
      rw [hc] at hfp
      unfold collectXmlFields at hfp
      simp only [List.mem_append, or_assoc] at hfp
      have hdir : ∀ hq : f ∈ forFields (plainTextOf content)
            ∨ f ∈ imageFields (plainTextOf content)
            ∨ f ∈ ifFields (plainTextOf content),
          f ∈ directiveFields content := by
        intro hq
        unfold directiveFields
        simp only [List.mem_append, or_assoc]
        exact hq
      rcases hfp with h | h | h | h | h
      · left
        rcases List.mem_filter.mp h with ⟨-, hk⟩
        simpa using hk
      · exact Or.inr ⟨zip, p, content, rfl, hp, hc, hdir (Or.inl h)⟩
      · exact Or.inr ⟨zip, p, content, rfl, hp, hc, hdir (Or.inr (Or.inl h))⟩
      · exact Or.inr ⟨zip, p, content, rfl, hp, hc, hdir (Or.inr (Or.inr h))⟩
      · left
        rcases List.mem_filter.mp h with ⟨-, hk⟩
        simpa using hk

/-- Witness for C6 (amended): the field `name` extracted from `{{name}}` is
not a control keyword (or a directive contribution). -/
theorem C6_keyword_exclusion_amended_witness :
    isControlKeyword "name" = false
    ∨ (∃ zip p content,
        zipWithDoc "\x7b\x7bname\x7d\x7d" [] = .ok zip ∧ p ∈ xmlFiles
        ∧ zip p = some content ∧ "name" ∈ directiveFields content) :=
  C6_keyword_exclusion_amended (zipWithDoc "\x7b\x7bname\x7d\x7d") [] "name" (by decide)

/-- C7: whenever the loop pass matches `{{FOR x IN y}}` on a part's
plain-text view, the collection identifier `y` is in the extracted field
set; whenever it matches the `{{FOR x}}` form, the loop variable `x` is; in
particular the document text `{{FOR items}}...{{END-FOR}}` extracts
`["items"]`. -/
theorem C7_for_directive :
    (∀ (zo : ZipOpen) (buffer : Buffer) (zip : Archive) (p content x y : String),
      zo buffer = .ok zip → p ∈ xmlFiles → zip p = some content →
      (x, some y) ∈ forPairs (plainTextOf content) →
      y ∈ extractFields zo buffer)
    ∧ (∀ (zo : ZipOpen) (buffer : Buffer) (zip : Archive) (p content x : String),
      zo buffer = .ok zip → p ∈ xmlFiles → zip p = some content →
      (x, none) ∈ forPairs (plainTextOf content) →
      x ∈ extractFields zo buffer)
    ∧ extractFields (zipWithDoc "\x7b\x7bFOR items\x7d\x7d...\x7b\x7bEND-FOR\x7d\x7d") []
        = ["items"] := by
  refine ⟨?_, ?_, rfl⟩
  · intro zo buffer zip p content x y hzo hp hc hm
    refine mem_extractFields_of_collect zo buffer zip p content y hzo hp hc ?_
    unfold collectXmlFields
    simp only [List.mem_append, or_assoc]
    refine Or.inr (Or.inl ?_)
    unfold forFields
    exact List.mem_map.mpr ⟨(x, some y), hm, rfl⟩
  · intro zo buffer zip p content x hzo hp hc hm
    refine mem_extractFields_of_collect zo buffer zip p content x hzo hp hc ?_
    unfold collectXmlFields
    simp only [List.mem_append, or_assoc]
    refine Or.inr (Or.inl ?_)
    unfold forFields
    exact List.mem_map.mpr ⟨(x, none), hm, rfl⟩

/-- Witness for C7: the `IN` form `{{FOR x IN orders}}` puts `orders` in the
extracted set of the archive containing it. -/
theorem C7_for_directive_witness :
    "orders" ∈ extractFields (zipWithDoc "\x7b\x7bFOR x IN orders\x7d\x7d") [] :=
  C7_for_directive.1 (zipWithDoc "\x7b\x7bFOR x IN orders\x7d\x7d") []
    (fun p => if p = "word/document.xml"
              then some "\x7b\x7bFOR x IN orders\x7d\x7d" else none)
    "word/document.xml" "\x7b\x7bFOR x IN orders\x7d\x7d" "x" "orders"
    rfl (by decide) rfl (by decide)

/-- The catch-block classification never produces a success response. -/
theorem classifyError_ne_ok (tid : Option String) (msg : String)
    (ct fn : String) (body : Buffer) :
    classifyError tid msg ≠ .ok ct fn body := by
  unfold classifyError
  repeat' split
  all_goals simp

/-- The only direct reply of the common validated-buffer block is the
invalid-template 400. -/
theorem validateAndRender_reply (o : Oracles) (p : UniversalPayload)
    (buf : Buffer) (effs : List Effect) (r : Response) (effects : List Effect)
    (h : validateAndRender o p buf effs = .reply r effects) :
    ∃ d, r = .err 400 "Invalid template file" (some d) := by
  unfold validateAndRender at h
  repeat' split at h
  all_goals first
    | (rw [PhaseResult.reply.injEq] at h
       exact ⟨_, h.1.symm⟩)
    | simp at h

/-- The only direct reply of the render phase is the invalid-template
400. -/
theorem renderPhase_reply_err (o : Oracles) (p : UniversalPayload)
    (r : Response) (effects : List Effect)
    (h : renderPhase o p = .reply r effects) :
    ∃ d, r = .err 400 "Invalid template file" (some d) := by
  unfold renderPhase at h
  split at h
  · exact validateAndRender_reply o p _ _ r effects h
  · split at h
    · split at h
      · simp at h
      · exact validateAndRender_reply o p _ _ r effects h
    · split at h <;> simp at h

/-- Success responses come only from the respond phase: DOCX output keeps
the native label, everything else is converted and labelled PDF; both
filenames are the sanitized display name plus the extension. -/
theorem handleGenerate_ok_shape {o : Oracles} {p : UniversalPayload}
    {ct fn : String} {body : Buffer} {effs : List Effect}
    (h : handleGenerate o p = (.ok ct fn body, effs)) :
    (p.output_format = .docx ∧ ct = docxMime
      ∧ fn = outputName (displayName o p) ++ ".docx")
    ∨ (¬ p.output_format = .docx ∧ ct = "application/pdf"
      ∧ fn = outputName (displayName o p) ++ ".pdf") := by
  unfold handleGenerate at h
  split at h
  · simp at h
  · split at h
    · rw [Prod.mk.injEq] at h
      exact absurd h.1 (classifyError_ne_ok _ _ _ _ _)
    · rename_i r effects2 hr
      obtain ⟨d, hd⟩ := renderPhase_reply_err o p r effects2 hr
      rw [Prod.mk.injEq, hd] at h
      simp at h
    · rename_i buf effects2 hr
      unfold respondPhase at h
      split at h
      · rename_i hfmt
        rw [Prod.mk.injEq] at h
        have hok := h.1
        rw [Response.ok.injEq] at hok
        exact Or.inl ⟨hfmt, hok.1.symm, hok.2.1.symm⟩
      · rename_i hfmt
        split at h
        · rw [Prod.mk.injEq] at h
          exact absurd h.1 (classifyError_ne_ok _ _ _ _ _)
        · rw [Prod.mk.injEq] at h
          have hok := h.1
          rw [Response.ok.injEq] at hok
          exact Or.inr ⟨hfmt, hok.1.symm, hok.2.1.symm⟩

/-- C1: whenever the number of non-empty template-source fields is not
exactly one, the request is rejected by the schema layer with no observable
I/O (no storage read, no fetch, no render), for every collaborator
assignment and whatever the field values are; and when exactly one source
is non-empty both refinement checks pass. -/
theorem C1_exactly_one_source (o : Oracles) (p : UniversalPayload) :
    (sourceCount p ≠ 1 → ∃ m, handleGenerate o p = (.schemaErr m, []))
    ∧ (sourceCount p = 1 → refineOneOf p = true ∧ refineExactlyOne p = true) := by
  constructor
  · intro h
    have hs : ∃ m, schemaCheck o.isValidUrl p = some m := by
      unfold schemaCheck
      cases hf : fieldIssues o.isValidUrl p with
      | some m => exact ⟨m, rfl⟩
      | none =>
        cases h1 : refineOneOf p with
        | false =>
          exact ⟨"One of template_id, template, or template_url must be provided",
            by simp [h1]⟩
        | true =>
          have h2 : refineExactlyOne p = false := by
            unfold refineExactlyOne
            simp [h]
          exact ⟨"Provide exactly one of: template_id, template, or template_url",
            by simp [h1, h2]⟩
    obtain ⟨m, hm⟩ := hs
    exact ⟨m, by unfold handleGenerate; rw [hm]⟩
  · intro h
    constructor
    · unfold refineOneOf
      unfold sourceCount at h
      cases ht : truthyStr p.template_id <;>
        cases hs2 : p.template.isSome <;>
          cases hu : truthyStr p.template_url <;> simp_all
    · unfold refineExactlyOne
      simp [h]

/-- Witness for C1: a request supplying both a stored id and an inline
template is rejected by the schema with no effects. -/
theorem C1_exactly_one_source_witness :
    ∃ m, handleGenerate trivialOracles
        { template_id := some "a.docx",
          template := some { content := "QUJD", filename := "b.docx" },
          output_format := .docx } = (.schemaErr m, []) :=
  (C1_exactly_one_source trivialOracles
    { template_id := some "a.docx",
      template := some { content := "QUJD", filename := "b.docx" },
      output_format := .docx }).1 (by decide)

theorem isPrefixOf_append_left {pat l : List Char} (r : List Char)
    (h : pat.isPrefixOf l = true) : pat.isPrefixOf (l ++ r) = true := by
  induction pat generalizing l with
  | nil =>
    cases l ++ r with
    | nil => rfl
    | cons x xs => rfl
  | cons a as ih =>
    cases l with
    | nil => simp [List.isPrefixOf] at h
    | cons b bs =>
      have h2 : (a == b && as.isPrefixOf bs) = true := h
      rw [Bool.and_eq_true] at h2
      show (a == b && as.isPrefixOf (bs ++ r)) = true
      rw [Bool.and_eq_true]
      exact ⟨h2.1, ih h2.2⟩

theorem hasSubstr_append_of_prefix (pat : List Char) (c : Char) (cs r : List Char)
    (h : pat.isPrefixOf (c :: cs) = true) :
    hasSubstr pat ((c :: cs) ++ r) = true := by
  show (pat.isPrefixOf (c :: (cs ++ r)) || hasSubstr pat (cs ++ r)) = true
  rw [Bool.or_eq_true]
  exact Or.inl (isPrefixOf_append_left r h)

/-- Every failure of the bounded fetch carries the fetch-failure marker in
its message. -/
theorem fetch_error_contains (outcome : FetchOutcome) (e : String)
    (h : fetchTemplateFromUrl outcome = .error e) :
    strContains e "Failed to fetch template" = true := by
  cases outcome with
  | timeout =>
    unfold fetchTemplateFromUrl at h
    rw [Except.error.injEq] at h
    subst h
    decide
  | transportError m =>
    unfold fetchTemplateFromUrl at h
    rw [Except.error.injEq] at h
    subst h
    exact hasSubstr_append_of_prefix "Failed to fetch template".data
      'F' "ailed to fetch template from URL: ".data m.data (by decide)
  | response st stx cl b =>
    simp only [fetchTemplateFromUrl] at h
    unfold fetchBodyCheck at h
    repeat' split at h
    all_goals first
      | (rw [Except.error.injEq] at h
         subst h
         exact hasSubstr_append_of_prefix "Failed to fetch template".data
           'F' "ailed to fetch template from URL: ".data _ (by decide))
      | simp at h

/-- C8 (amended): the fetch is bounded by the hard 30 000 ms timeout
constant and the hard 50 MiB cap, the cap being enforced both through the
declared content-length and through the bytes received (a response succeeds
iff its status is a success and neither measure exceeds the cap); every
failure message carries the fetch-failure marker, and any such message is
classified as the outward fetch-failure kind provided it does not contain a
substring matched by an earlier classification branch (ENOENT, no such
file, Gotenberg, base64, Invalid); timeout wording differs from
non-success-status wording. -/
theorem C8_fetch_bounds_amended :
    (fetchTimeoutMs = 30000 ∧ fetchMaxSize = 52428800)
    ∧ (∀ st stx cl b, fetchTemplateFromUrl (.response st stx cl b) = .ok b ↔
        (isOkStatus st = true ∧ (∀ n, cl = some n → n ≤ fetchMaxSize)
          ∧ b.length ≤ fetchMaxSize))
    ∧ (∀ outcome e, fetchTemplateFromUrl outcome = .error e →
        strContains e "Failed to fetch template" = true)
    ∧ (∀ tid e, strContains e "Failed to fetch template" = true →
        strContains e "ENOENT" = false → strContains e "no such file" = false →
        strContains e "Gotenberg" = false → strContains e "base64" = false →
        strContains e "Invalid" = false →
        classifyError tid e = .err 502 "Failed to fetch template from URL" (some e))
    ∧ (∃ eT e404, fetchTemplateFromUrl .timeout = .error eT
        ∧ fetchTemplateFromUrl (.response 404 "Not Found" none []) = .error e404
        ∧ eT ≠ e404) := by
  refine ⟨⟨rfl, rfl⟩, ?_, fetch_error_contains, ?_, ?_⟩
  · intro st stx cl b
    unfold fetchTemplateFromUrl fetchBodyCheck
    cases hst : isOkStatus st with
    | false => simp [hst]
    | true =>
      cases cl with
      | none =>
        by_cases hb : fetchMaxSize < b.length
        · simp [hst, hb]
        · simp [hst, hb]
          omega
      | some n =>
        by_cases hn : fetchMaxSize < n
        · simp [hst, hn]
        · by_cases hb : fetchMaxSize < b.length
          · simp [hst, hn, hb]
          · simp [hst, hn, hb]
            omega
  · intro tid e hF hE hN hG hB hI
    unfold classifyError
    simp [hE, hN, hG, hB, hI, hF]
  · exact ⟨_, _, rfl, rfl, by decide⟩

/-- Witness for C8 (amended): the concrete timeout message is classified as
the outward fetch-failure kind. -/
theorem C8_fetch_bounds_amended_witness :
    classifyError none "Failed to fetch template: Request timed out after 30000ms"
      = .err 502 "Failed to fetch template from URL"
          (some "Failed to fetch template: Request timed out after 30000ms") :=
  C8_fetch_bounds_amended.2.2.2.1 none
    "Failed to fetch template: Request timed out after 30000ms"
    (by decide) (by decide) (by decide) (by decide) (by decide) (by decide)

/-- C8 counterexample: a transport error whose message contains `Invalid`
(e.g. `Invalid argument`) is classified as the 400 invalid-template-content
kind, not the single outward fetch-failure kind, because the base64/Invalid
classification branch precedes the fetch branch. -/
theorem C8_counterexample :
    handleGenerate
        { trivialOracles with fetchOutcome := .transportError "Invalid argument" }
        { template_url := some "http://host/t.docx", output_format := .pdf }
      = (.err 400 "Invalid template content"
          (some ("Failed to fetch template from URL: " ++ "Invalid argument")),
         [.urlFetch])
    ∧ "Invalid template content" ≠ "Failed to fetch template from URL" :=
  ⟨rfl, by decide⟩

/-- C9 counterexample: a successful generation with requested output format
`html` returns the PDF content label and a filename ending in `.pdf`, not
the requested format's `.html` extension — the code converts every
non-native format (including html) to PDF. -/
theorem C9_counterexample :
    handleGenerate trivialOracles
        { template_id := some "report.docx", output_format := .html }
      = (.ok "application/pdf" "report.pdf" [], [.storedRender, .convertCall])
    ∧ "report.pdf" ≠ "report.html" :=
  ⟨rfl, by decide⟩

/-- C9 (amended): every successful generation carries the native DOCX label
and `.docx` filename extension when the requested format is docx, and the
PDF label and `.pdf` extension for every other requested format (pdf and
html alike); the filename is the display name with one `.docx` suffix
stripped and slashes replaced, plus that extension. -/
theorem C9_response_labels_amended (o : Oracles) (p : UniversalPayload)
    (ct fn : String) (body : Buffer) (effs : List Effect)
    (h : handleGenerate o p = (.ok ct fn body, effs)) :
    (p.output_format = .docx → ct = docxMime
      ∧ fn = outputName (displayName o p) ++ ".docx")
    ∧ (p.output_format ≠ .docx → ct = "application/pdf"
      ∧ fn = outputName (displayName o p) ++ ".pdf") := by
  rcases handleGenerate_ok_shape h with ⟨hf, hct, hfn⟩ | ⟨hf, hct, hfn⟩
  · exact ⟨fun _ => ⟨hct, hfn⟩, fun hne => absurd hf hne⟩
  · exact ⟨fun heq => absurd heq hf, fun _ => ⟨hct, hfn⟩⟩

/-- Witness for C9 (amended): a successful stored-mode DOCX generation
carries the DOCX label and the stripped name plus `.docx`. -/
theorem C9_response_labels_amended_witness :
    docxMime = docxMime
    ∧ "report.docx" = outputName (displayName trivialOracles
        { template_id := some "report.docx", output_format := .docx }) ++ ".docx" :=
  (C9_response_labels_amended trivialOracles
    { template_id := some "report.docx", output_format := .docx }
    docxMime "report.docx" [] [.storedRender] rfl).1 rfl

theorem slash_not_mem_outputName (s : String) : '/' ∉ (outputName s).data := by
  unfold outputName replaceSlashes
  intro hm
  rcases List.mem_map.mp hm with ⟨a, -, ha⟩
  by_cases hc : a = '/'
  · rw [if_pos hc] at ha
    exact absurd ha (by decide)
  · rw [if_neg hc] at ha
    exact hc ha

/-- C10: the download filename of every successful generation contains no
slash — the sanitizer replaces every `/` in the display name with `_`
before the output extension (itself slash-free) is appended. -/
theorem C10_no_slash_filename (o : Oracles) (p : UniversalPayload)
    (ct fn : String) (body : Buffer) (effs : List Effect)
    (h : handleGenerate o p = (.ok ct fn body, effs)) :
    '/' ∉ fn.data := by
  rcases handleGenerate_ok_shape h with ⟨-, -, hfn⟩ | ⟨-, -, hfn⟩ <;>
    · subst hfn
      intro hm
      rw [str_data_append] at hm
      rcases List.mem_append.mp hm with hm | hm
      · exact slash_not_mem_outputName _ hm
      · exact absurd hm (by decide)

/-- Witness for C10: a stored id containing a slash yields the filename
`dir_report.docx`, which contains no slash. -/
theorem C10_no_slash_filename_witness :
    '/' ∉ ("dir_report.docx" : String).data :=
  C10_no_slash_filename trivialOracles
    { template_id := some "dir/report.docx", output_format := .docx }
    docxMime "dir_report.docx" [] [.storedRender] rfl

end Velocidoc
